import Mathlib

/-!
Verification of the SmartFile API client (`smartfile/__init__.py`,
`smartfile/errors.py`) against its natural-language specification.

The embedding models Python strings as Lean `String` (a wrapper around
`List Char`), machine-independent Python integers as `Int`, `None` as
`Option.none`, and raising code as `Except`.  The HTTP transport, the
process environment and the JSON decoder are external collaborators and
are passed in as explicit function arguments.
-/

namespace SmartFile

/-! ## URL resolution (`_BaseAPI._gen_url`) -/

/-- A positional URL argument as supplied by callers: either a Python
string or a Python integer (e.g. a numeric resource id). -/
inductive Arg where
  | str (s : String)
  | int (n : Int)
deriving DecidableEq, Repr

/-- Rendering of an argument into the URL, as done by Python string
formatting: strings verbatim, integers in decimal. -/
def argRender : Arg → String
  | .str s => s
  | .int n => toString n

/-- The first character of a character list is `'/'`. -/
def headSlash : List Char → Bool
  | [] => false
  | c :: _ => c == '/'

/-- The last character of a character list is `'/'`. -/
def lastSlash : List Char → Bool
  | [] => false
  | [c] => c == '/'
  | _ :: c :: l => lastSlash (c :: l)

/-- Python `s.endswith('/')`: the last character is `'/'`. -/
def endsWithSlash (s : String) : Bool := lastSlash s.data

/-- Python `s.startswith('/')`: the first character is `'/'`. -/
def startsWithSlash (s : String) : Bool := headSlash s.data

/-- Python `s[1:]`. -/
def dropFirstChar (s : String) : String := String.mk (s.data.drop 1)

/-- The leading-slash strip of the loop body: a string argument starting
with `'/'` loses its first character; other arguments are unchanged. -/
def stripArg : Arg → Arg
  | .str s => if startsWithSlash s then .str (dropFirstChar s) else .str s
  | .int n => .int n

/-- One iteration of the concatenation loop of `_gen_url`: strip a single
leading slash from a string argument, skip the argument if (after the
strip) it equals `'/'`, otherwise append it, inserting one separator
exactly when the accumulated URL does not already end in `'/'`. -/
def appendSeg (url : String) (a : Arg) : String :=
  let a' : Arg := stripArg a
  if a' == Arg.str "/" then url
  else url ++ (if endsWithSlash url then "" else "/") ++ argRender a'

/-- The generator expression of `_gen_url`:
`(next(uri_iter) if x is None else x for x in self._api_uri)` under
Python 2 semantics, where a `StopIteration` raised by `next` on an
exhausted argument iterator silently terminates the whole generator
(the behaviour the source's NOTE comment documents). -/
def fillPaths : List (Option String) → List Arg → List Arg
  | [], _ => []
  | some s :: tpl, args => Arg.str s :: fillPaths tpl args
  | none :: _, [] => []
  | none :: tpl, a :: args => a :: fillPaths tpl args

/-- `_BaseAPI._gen_url(uri_args, baseurl)`: fill the URI template from the
positional arguments, then left-fold the concatenation loop over the
resulting path components starting from the base URL. -/
def gen_url (tpl : List (Option String)) (args : List Arg) (baseurl : String) : String :=
  (fillPaths tpl args).foldl appendSeg baseurl

/-- Number of placeholders (`None` entries) of a URI template. -/
def countPlaceholders : List (Option String) → Nat
  | [] => 0
  | none :: tpl => countPlaceholders tpl + 1
  | some _ :: tpl => countPlaceholders tpl

/-- `UserAPI._api_uri = ('user/', None, '/')`. -/
def user_uri : List (Option String) := [some "user/", none, some "/"]

/-- `PathOperAPI._api_uri = ('path/oper/', None, None, None, '/')`. -/
def pathOper_uri : List (Option String) := [some "path/oper/", none, none, none, some "/"]

/-- `PathTreeAPI._api_uri = ('path/tree/', None)`. -/
def pathTree_uri : List (Option String) := [some "path/tree/", none]

/-- `_BaseAPI._baseurl`. -/
def default_baseurl : String := "http://localhost:8000/api/2/"

/-- `'//'` occurs as a contiguous substring of the character list. -/
def hasDS : List Char → Bool
  | [] => false
  | [_] => false
  | a :: b :: l => (a == '/' && b == '/') || hasDS (b :: l)

/-! ## Polling (`PathOperAPI.poll`) and compound remove (`PathAPI.remove`)

The transport session is an external collaborator; a poll transcript is a
function from the zero-based index of the GET request to the response it
returns.  A response is modelled by the fields the code reads:
`status_code`, the body's `['result']['status']` field, and the body's
`['url']` field. -/

/-- The fields of an HTTP response that `poll` and `remove` read. -/
structure Response where
  status_code : Nat
  result_status : String
  oper_url : String
deriving DecidableEq, Repr

/-- The `while checks > 0` loop of `PathOperAPI.poll`, with `fuel` the
current value of `checks` and `reads` the number of GETs already issued.
Returns the Python variable `response` after the loop (`none` when the
loop body never ran, in which case `return response` raises a `NameError`
because `response` was never bound) together with the total number of
GETs issued.  The loop breaks as soon as a response has a status other
than 200 or a body status of `SUCCESS`; otherwise it decrements the
budget, sleeps, and retries. -/
def pollLoop (t : Nat → Response) : Nat → Nat → Option Response × Nat
  | 0, reads => (none, reads)
  | fuel + 1, reads =>
    let r := t reads
    if r.status_code != 200 || r.result_status == "SUCCESS" then
      (some r, reads + 1)
    else
      match pollLoop t fuel (reads + 1) with
      | (none, reads') => (some r, reads')
      | out => out

/-- `PathOperAPI.poll(url, checks, check_timeout)`.  `checks` is a Python
integer; the loop runs while it is positive.  The sleep between attempts
has no observable effect in this model. -/
def poll (t : Nat → Response) (checks : Int) : Option Response × Nat :=
  pollLoop t checks.toNat 0

/-- The URL `PathOperAPI.remove` posts to: the oper template resolved
with the single argument `'remove/'` (the template has three placeholders
and the call relies on the resolver's silent truncation). -/
def pathOperRemove_url : String :=
  gen_url pathOper_uri [Arg.str "remove/"] default_baseurl

/-- `PathAPI.remove(path)`.  `post path` models the submission performed
by `PathOperAPI.remove` (a single POST of the form data to the oper
remove URL); `get u i` models the `i`-th GET of URL `u` by the poll loop.
Modelled from the spec: the `response_processor` decorator
(`smartfile/decorators.py`, not in `src/`) wraps the transport call; per
the spec it converts transport-level failures into `RequestError`, and
the received HTTP response is delivered to the calling code, which
inspects `status_code` itself (as both `remove` and `download` in the
source do).  Returns the response handed back to the caller and the
number of poll GETs issued. -/
def PathAPI_remove (post : String → Response) (get : String → Nat → Response)
    (path : String) : Option Response × Nat :=
  let response := post path
  if response.status_code == 200 then
    poll (get response.oper_url) 5
  else
    (some response, 0)

/-! ## Credential resolution (`_BaseAPI._get_auth`) -/

/-- The error message of the `Exception` raised by `_get_auth`. -/
def auth_error_msg : String :=
  "Set key/password (SMARTFILE_API_KEY, SMARTFILE_API_PASS) in environment"

/-- `_BaseAPI._get_auth(api_key, api_pass)`.  `env` models `os.environ`
(`none` = variable unset, read as a `KeyError`).  The environment is
consulted exactly when both explicit arguments are `None`; a `KeyError`
from either lookup is turned into the configuration `Exception`.  No
network call is involved. -/
def get_auth (api_key api_pass : Option String) (env : String → Option String) :
    Except String (Option String × Option String) :=
  if api_key.isNone && api_pass.isNone then
    match env "SMARTFILE_API_KEY", env "SMARTFILE_API_PASS" with
    | some k, some p => .ok (some k, some p)
    | _, _ => .error auth_error_msg
  else
    .ok (api_key, api_pass)

/-! ## `ResponseError.__init__` (`smartfile/errors.py`) -/

/-- The fields of an HTTP response that `ResponseError.__init__` reads:
the status code and the JSON decode of the body, where `none` models a
body that is empty or not valid JSON.  The decoded body is modelled as an
association list of string fields (only `detail` is ever read). -/
structure HttpResponse where
  status_code : Nat
  body_json : Option (List (String × String))

/-- The external `response.json()` call of the `requests` library: yields
the decoded body, and raises when the body is empty or not valid JSON
(a `ValueError` in requests ≥ 1.0 where `json` is a method; under the
requests < 1.0 property API that `smartfile/__init__.py` itself uses,
`response.json` is the decoded value or `None` and the call raises a
`TypeError` instead — either way the call raises before returning). -/
def response_json_call (r : HttpResponse) : Except String (List (String × String)) :=
  match r.body_json with
  | some j => .ok j
  | none => .error "No JSON object could be decoded"

/-- The default fallback detail message of `ResponseError`. -/
def default_detail : String := "Server error; check response for errors"

/-- The constructed `ResponseError`: status code and detail message. -/
structure RespError where
  status_code : Nat
  detail : String
deriving DecidableEq, Repr

/-- `ResponseError.__init__(response)`: calls `response.json()` first
(any exception it raises propagates out of the constructor), then falls
back to the default detail when the decoded body is falsy (empty object)
or has no `detail` field, and otherwise uses the body's `detail`. -/
def ResponseError_init (r : HttpResponse) : Except String RespError :=
  match response_json_call r with
  | .error e => .error e
  | .ok json =>
    .ok { status_code := r.status_code
          detail :=
            if json.isEmpty || (json.lookup "detail").isNone then default_detail
            else (json.lookup "detail").getD "" }

/-! ## Download (`PathAPI.download`) -/

/-- A content-transfer response: status code and the raw byte stream of
the body (bytes as naturals). -/
structure DataResponse where
  status_code : Nat
  content : List Nat

/-- The tree-lookup response field `download` reads (`tree.json['id']`). -/
structure TreeResponse where
  json_id : String

/-- Fuel-bounded splitting of a byte stream into consecutive chunks of at
most `n` bytes (the fuel is instantiated with the stream length, which
bounds the number of chunks whenever `1 ≤ n`). -/
def chunksFuel (n : Nat) : Nat → List Nat → List (List Nat)
  | _, [] => []
  | 0, l => [l]
  | fuel + 1, l => l.take n :: chunksFuel n fuel (l.drop n)

/-- The external `response.iter_content(chunk_size)` of the `requests`
library: streams the body as consecutive chunks of at most `chunk_size`
bytes. -/
def iter_content (r : DataResponse) (chunkSize : Nat) : List (List Nat) :=
  chunksFuel chunkSize r.content.length r.content

/-- Following the spec's words (§4.1), for comparison with `fillPaths`:
walk the template segments in order; each literal segment is appended
as-is; each placeholder segment consumes the next unused argument, in
order.  (Total function; the default value is never reached when the
arguments suffice to fill every placeholder.) -/
def fillSpecSub : List (Option String) → List Arg → List Arg
  | [], _ => []
  | some s :: tpl, args => Arg.str s :: fillSpecSub tpl args
  | none :: tpl, args => args.headD (Arg.str "") :: fillSpecSub tpl args.tail

/-- A path component is clean when, after the leading-slash strip, its
rendering neither contains `'//'` nor still starts with `'/'`. -/
def segCleanB (a : Arg) : Bool :=
  !hasDS (argRender (stripArg a)).data && !headSlash (argRender (stripArg a)).data

/-- `PathAPI.download(dst, src)`: reads the tree metadata of `src` to
obtain the resource id, issues the data-endpoint read for that id, and —
only when that response has status 200 — writes the body to the local
file by iterating `response.iter_content(16 * 1024)` and appending each
chunk in order.  Returns the data response together with the bytes
written to `dst` (`none` when nothing was written). -/
def PathAPI_download (read_tree : String → TreeResponse)
    (read_data : String → DataResponse) (src : String) :
    DataResponse × Option (List Nat) :=
  let tree := read_tree src
  let response := read_data tree.json_id
  if response.status_code == 200 then
    (response, some ((iter_content response (16 * 1024)).foldl (fun acc c => acc ++ c) []))
  else
    (response, none)

/-! ## Concrete transports and fixtures used by closed statements -/

/-- A 200/PENDING poll response. -/
def pendingResponse : Response := ⟨200, "PENDING", ""⟩

/-- A 200/SUCCESS poll response. -/
def successResponse : Response := ⟨200, "SUCCESS", ""⟩

/-- A 503 response. -/
def response503 : Response := ⟨503, "", ""⟩

/-- A poll transcript that answers 200/PENDING to every GET. -/
def alwaysPending : Nat → Response := fun _ => pendingResponse

/-- A poll transcript: 200/PENDING twice, then 200/SUCCESS. -/
def pendingTwiceThenSuccess : Nat → Response :=
  fun i => if i < 2 then pendingResponse else successResponse

/-- A poll transcript that answers 503 to every GET. -/
def always503 : Nat → Response := fun _ => response503

/-- A submission endpoint that answers 503 to every POST. -/
def submit503 : String → Response := fun _ => response503

/-- A polling transport that answers 503 on every URL. -/
def getAll503 : String → Nat → Response := fun _ _ => response503

/-- A submission endpoint that accepts the operation and hands back a
poll URL in the body. -/
def submitOk : String → Response := fun _ => ⟨200, "", "http://host/api/2/path/oper/7/"⟩

/-- A polling transport that reports SUCCESS immediately on every URL. -/
def getAllSuccess : String → Nat → Response := fun _ _ => successResponse

/-- A tree endpoint answering every lookup with resource id `"7"`. -/
def treeStub : String → TreeResponse := fun _ => ⟨"7"⟩

/-- A data endpoint streaming a three-byte body with status 200. -/
def dataStub : String → DataResponse := fun _ => ⟨200, [104, 105, 33]⟩

/-- An empty process environment. -/
def envEmpty : String → Option String := fun _ => none

/-- A process environment defining every variable as `"secret"`. -/
def envBoth : String → Option String := fun _ => some "secret"

/-! ## Helper lemmas -/

theorem string_data_append (s t : String) : (s ++ t).data = s.data ++ t.data := by
  cases s
  cases t
  rfl

theorem empty_data : ("" : String).data = [] := rfl

theorem slash_data : ("/" : String).data = ['/'] := rfl

theorem headSlash_cons (c : Char) (l : List Char) : headSlash (c :: l) = (c == '/') := rfl

theorem hasDS_cons (a : Char) (l : List Char) :
    hasDS (a :: l) = ((a == '/' && headSlash l) || hasDS l) := by
  cases l <;> simp [hasDS, headSlash]

theorem hasDS_append : ∀ (xs ys : List Char),
    hasDS (xs ++ ys) = (hasDS xs || hasDS ys || (lastSlash xs && headSlash ys))
  | [], ys => by simp [hasDS, lastSlash]
  | [c], ys => by
    simp only [List.singleton_append, hasDS_cons, hasDS, lastSlash]
    cases c == '/' <;> cases headSlash ys <;> cases hasDS ys <;> simp
  | c :: d :: xs, ys => by
    have ih := hasDS_append (d :: xs) ys
    simp only [List.cons_append] at ih ⊢
    simp only [hasDS, lastSlash, ih, Bool.or_assoc]

theorem appendSeg_noDS (url : String) (a : Arg)
    (hu : hasDS url.data = false) (ha : segCleanB a = true) :
    hasDS (appendSeg url a).data = false := by
  rw [segCleanB, Bool.and_eq_true, Bool.not_eq_true', Bool.not_eq_true'] at ha
  obtain ⟨ha1, ha2⟩ := ha
  unfold appendSeg
  by_cases hskip : stripArg a == Arg.str "/"
  · simpa [hskip] using hu
  · simp only [hskip, Bool.false_eq_true, if_false]
    cases hend : endsWithSlash url with
    | true =>
      simp only [if_true, string_data_append, empty_data, List.append_nil,
        hasDS_append, hu, ha1, ha2]
      simp
    | false =>
      have hlast : lastSlash url.data = false := hend
      simp only [Bool.false_eq_true, if_false, string_data_append, slash_data,
        List.append_assoc, List.singleton_append, hasDS_append, hasDS_cons,
        headSlash_cons, hu, ha1, ha2, hlast]
      simp

theorem foldl_appendSeg_noDS : ∀ (l : List Arg) (url : String),
    hasDS url.data = false → (∀ a ∈ l, segCleanB a = true) →
    hasDS (l.foldl appendSeg url).data = false
  | [], _, hu, _ => hu
  | a :: l, url, hu, hl =>
    foldl_appendSeg_noDS l (appendSeg url a)
      (appendSeg_noDS url a hu (hl a (List.mem_cons_self a l)))
      (fun b hb => hl b (List.mem_cons_of_mem a hb))

theorem fillPaths_eq_fillSpecSub : ∀ (tpl : List (Option String)) (args : List Arg),
    countPlaceholders tpl ≤ args.length → fillPaths tpl args = fillSpecSub tpl args
  | [], _, _ => rfl
  | some s :: tpl, args, h => by
    simp only [fillPaths, fillSpecSub]
    exact congrArg _ (fillPaths_eq_fillSpecSub tpl args h)
  | none :: tpl, [], h => by
    simp only [countPlaceholders, List.length_nil] at h
    omega
  | none :: tpl, a :: args, h => by
    simp only [countPlaceholders, List.length_cons] at h
    simp only [fillPaths, fillSpecSub, List.headD, List.tail]
    exact congrArg _ (fillPaths_eq_fillSpecSub tpl args (by omega))

theorem fillPaths_take : ∀ (tpl : List (Option String)) (args : List Arg),
    countPlaceholders tpl ≤ args.length →
    fillPaths tpl args = fillPaths tpl (args.take (countPlaceholders tpl))
  | [], _, _ => rfl
  | some s :: tpl, args, h => by
    simp only [fillPaths, countPlaceholders]
    exact congrArg _ (fillPaths_take tpl args h)
  | none :: tpl, [], h => by
    simp only [countPlaceholders, List.length_nil] at h
    omega
  | none :: tpl, a :: args, h => by
    simp only [countPlaceholders, List.length_cons] at h
    simp only [fillPaths, countPlaceholders, List.take_succ_cons]
    exact congrArg _ (fillPaths_take tpl args (by omega))

theorem pollLoop_run (t : Nat → Response) : ∀ (fuel reads : Nat), 1 ≤ fuel →
    ∃ r n, pollLoop t fuel reads = (some r, reads + n) ∧ 1 ≤ n ∧ n ≤ fuel ∧
      r = t (reads + n - 1)
  | 0, _, h => absurd h (by omega)
  | 1, reads, _ => by
    refine ⟨t reads, 1, ?_, le_refl 1, le_refl 1, by simp⟩
    simp only [pollLoop]
    split <;> rfl
  | fuel + 2, reads, _ => by
    by_cases hbrk :
        ((t reads).status_code != 200 || (t reads).result_status == "SUCCESS") = true
    · exact ⟨t reads, 1, by simp only [pollLoop, hbrk, if_true], by omega, by omega, by simp⟩
    · obtain ⟨r, n, hres, h1, h2, hr⟩ := pollLoop_run t (fuel + 1) (reads + 1) (by omega)
      refine ⟨r, n + 1, ?_, by omega, by omega, ?_⟩
      · have hstep : pollLoop t (fuel + 2) reads =
            match pollLoop t (fuel + 1) (reads + 1) with
            | (none, reads') => (some (t reads), reads')
            | out => out := by
          conv_lhs => rw [pollLoop]
          simp only [hbrk, Bool.false_eq_true, if_false]
        have harith : reads + 1 + n = reads + (n + 1) := by omega
        rw [hstep, hres, harith]
      · rw [hr]
        congr 1
        omega

theorem chunksFuel_flatten (n : Nat) (hn : 1 ≤ n) : ∀ (fuel : Nat) (l : List Nat),
    l.length ≤ fuel → (chunksFuel n fuel l).flatten = l
  | 0, l, hl => by
    have : l = [] := List.length_eq_zero.mp (by omega)
    subst this
    rfl
  | fuel + 1, [], _ => rfl
  | fuel + 1, a :: m, hl => by
    simp only [chunksFuel, List.flatten_cons]
    rw [chunksFuel_flatten n hn fuel ((a :: m).drop n)
      (by simp only [List.length_drop, List.length_cons] at *; omega)]
    exact List.take_append_drop n (a :: m)

theorem chunksFuel_bound (n : Nat) (hn : 1 ≤ n) : ∀ (fuel : Nat) (l : List Nat),
    ∀ c ∈ chunksFuel n fuel l, l.length ≤ fuel → c.length ≤ n
  | 0, l, c, hc, hl => by
    have : l = [] := List.length_eq_zero.mp (by omega)
    subst this
    simp [chunksFuel] at hc
  | fuel + 1, [], c, hc, _ => by simp [chunksFuel] at hc
  | fuel + 1, a :: m, c, hc, hl => by
    simp only [chunksFuel, List.mem_cons] at hc
    rcases hc with hc | hc
    · subst hc
      simp only [List.length_take]
      omega
    · exact chunksFuel_bound n hn fuel ((a :: m).drop n) c hc
        (by simp only [List.length_drop, List.length_cons] at *; omega)

theorem foldl_append_eq_flatten : ∀ (L : List (List Nat)) (acc : List Nat),
    L.foldl (fun acc c => acc ++ c) acc = acc ++ L.flatten
  | [], acc => by simp
  | c :: L, acc => by
    simp only [List.foldl_cons, List.flatten_cons, foldl_append_eq_flatten L (acc ++ c),
      List.append_assoc]

/-! ## Claim theorems -/

/-- Claim C1: with fewer arguments than placeholders, `_gen_url` does not
fail with a TemplatingError — it silently truncates the URL.  The user
template (one placeholder) resolved with no arguments yields the base
joined with the first literal only, and `PathOperAPI.remove` itself
relies on the truncation, resolving the oper template (three
placeholders) with the single argument `'remove/'`. -/
theorem gen_url_truncates_on_missing_args :
    gen_url user_uri [] default_baseurl = "http://localhost:8000/api/2/user/"
    ∧ gen_url pathOper_uri [Arg.str "remove/"] default_baseurl
        = "http://localhost:8000/api/2/path/oper/remove/"
    ∧ countPlaceholders user_uri = 1
    ∧ countPlaceholders pathOper_uri = 3 := by
  refine ⟨rfl, rfl, rfl, rfl⟩

/-- Claim C2, counterexample: with one extra trailing argument beyond the
single placeholder of the user template, the extra argument (`"extra"`)
is dropped, not appended (the result contains no `'x'` at all); and an
argument beginning with a doubled slash survives into the result, so
`'//'` can occur in the path portion even when the base has none. -/
theorem gen_url_extras_counterexample :
    gen_url user_uri [Arg.str "a", Arg.str "extra"] "http://host/api/2/"
        = "http://host/api/2/user/a/"
    ∧ (gen_url user_uri [Arg.str "a", Arg.str "extra"] "http://host/api/2/").data.contains 'x'
        = false
    ∧ countPlaceholders user_uri = 1
    ∧ gen_url pathTree_uri [Arg.str "//x"] "/api/2/" = "/api/2/path/tree//x"
    ∧ hasDS (gen_url pathTree_uri [Arg.str "//x"] "/api/2/").data = true
    ∧ hasDS ("/api/2/" : String).data = false := by
  refine ⟨rfl, rfl, rfl, rfl, rfl, rfl⟩

/-- Claim C2, amended: for every template with `k` placeholders and every
argument list of length at least `k`, URL resolution succeeds and
substitutes exactly the first `k` arguments for the placeholders in
order (it agrees with the spec's walk of the template); arguments beyond
the `k` placeholders are silently ignored; and the resolver itself never
introduces a doubled slash — when the base contains none and each filled
path component is clean (after the leading-slash strip it neither
contains `'//'` nor still begins with `'/'`), the result contains no
`'//'`. -/
theorem gen_url_enough_args :
    ∀ (tpl : List (Option String)) (args : List Arg) (base : String),
      countPlaceholders tpl ≤ args.length →
      (fillPaths tpl args = fillSpecSub tpl args
       ∧ gen_url tpl args base = gen_url tpl (args.take (countPlaceholders tpl)) base
       ∧ (hasDS base.data = false →
            (∀ a ∈ fillPaths tpl args, segCleanB a = true) →
            hasDS (gen_url tpl args base).data = false)) := by
  intro tpl args base h
  refine ⟨fillPaths_eq_fillSpecSub tpl args h, ?_, ?_⟩
  · unfold gen_url
    rw [← fillPaths_take tpl args h]
  · intro hb hclean
    exact foldl_appendSeg_noDS (fillPaths tpl args) base hb hclean

/-- Witness for `gen_url_enough_args` at the user template with one extra
trailing argument over the base `/api/2/`. -/
theorem gen_url_enough_args_witness :
    fillPaths user_uri [Arg.str "bobafett", Arg.str "extra"]
        = fillSpecSub user_uri [Arg.str "bobafett", Arg.str "extra"]
    ∧ gen_url user_uri [Arg.str "bobafett", Arg.str "extra"] "/api/2/"
        = gen_url user_uri
            ([Arg.str "bobafett", Arg.str "extra"].take (countPlaceholders user_uri)) "/api/2/"
    ∧ hasDS (gen_url user_uri [Arg.str "bobafett", Arg.str "extra"] "/api/2/").data = false := by
  obtain ⟨h1, h2, h3⟩ := gen_url_enough_args user_uri
    [Arg.str "bobafett", Arg.str "extra"] "/api/2/" (by decide)
  exact ⟨h1, h2, h3 (by decide) (by decide)⟩

/-- Claim C3: when every poll of the status URL answers 200/PENDING, the
default-budget poll performs exactly 5 GETs and returns the last pending
response itself (no error is raised or synthesized); when the polls
answer 200/PENDING twice and then 200/SUCCESS, it performs exactly 3
GETs and returns the success response. -/
theorem poll_budget_exhaustion_and_success :
    poll alwaysPending 5 = (some pendingResponse, 5)
    ∧ poll pendingTwiceThenSuccess 5 = (some successResponse, 3) := by
  refine ⟨rfl, rfl⟩

/-- Claim C4: the poll loop never retries after a non-200 response — at
any remaining budget, a non-200 response to the current GET ends the
loop at once and is returned after exactly that one additional read;
and when the transport answers 503 to everything, `remove` performs its
single submission, receives the 503, and performs no poll read at all. -/
theorem pollLoop_stops_on_non200 :
    (∀ (t : Nat → Response) (fuel reads : Nat),
        (t reads).status_code ≠ 200 →
        pollLoop t (fuel + 1) reads = (some (t reads), reads + 1))
    ∧ (∀ (post : String → Response) (get : String → Nat → Response) (path : String),
        (post path).status_code = 503 →
        PathAPI_remove post get path = (some (post path), 0)) := by
  constructor
  · intro t fuel reads h
    have hbrk : ((t reads).status_code != 200 || (t reads).result_status == "SUCCESS")
        = true := by simp [h]
    conv_lhs => rw [pollLoop]
    simp only [hbrk, if_true]
  · intro post get path h
    simp [PathAPI_remove, h]

/-- Witness for `pollLoop_stops_on_non200`: an all-503 transport yields a
single poll read, and an all-503 remove performs zero poll reads. -/
theorem pollLoop_stops_on_non200_witness :
    pollLoop always503 5 0 = (some response503, 1)
    ∧ PathAPI_remove submit503 getAll503 "/a/b" = (some response503, 0) := by
  constructor
  · have := pollLoop_stops_on_non200.1 always503 4 0 (by decide)
    simpa using this
  · have := pollLoop_stops_on_non200.2 submit503 getAll503 "/a/b" (by decide)
    simpa using this

/-- Claim C5: `PathAPI.remove` submits exactly one remove operation
through the oper endpoint; exactly when the submission response has
status 200 it hands control to the poller against the URL carried in the
submission response's body, returning the poller's terminal response;
otherwise it returns the unpolled submission response (with no poll
read). -/
theorem remove_submission_branching :
    ∀ (post : String → Response) (get : String → Nat → Response) (path : String),
      ((post path).status_code = 200 →
        PathAPI_remove post get path = poll (get (post path).oper_url) 5)
      ∧ ((post path).status_code ≠ 200 →
        PathAPI_remove post get path = (some (post path), 0)) := by
  intro post get path
  constructor
  · intro h
    simp [PathAPI_remove, poll, h]
  · intro h
    simp [PathAPI_remove, h]

/-- Witness for `remove_submission_branching`: an accepted submission
hands over to the poller at the URL from the submission body, and a 503
submission is returned unpolled. -/
theorem remove_submission_branching_witness :
    PathAPI_remove submitOk getAllSuccess "/f"
        = poll (getAllSuccess (submitOk "/f").oper_url) 5
    ∧ PathAPI_remove submit503 getAll503 "/f" = (some (submit503 "/f"), 0) := by
  constructor
  · exact (remove_submission_branching submitOk getAllSuccess "/f").1 (by decide)
  · exact (remove_submission_branching submit503 getAll503 "/f").2 (by decide)

/-- Claim C6: on a non-success response whose body is empty or not valid
JSON, `ResponseError.__init__` does not construct the fallback error —
the `response.json()` call raises first and the secondary decoding error
propagates out of the constructor.  The fallback detail is only reached
for bodies that decode (empty object, or object without `detail`). -/
theorem ResponseError_init_eval :
    ResponseError_init ⟨500, none⟩ = Except.error "No JSON object could be decoded"
    ∧ ResponseError_init ⟨500, some []⟩ = Except.ok ⟨500, default_detail⟩
    ∧ ResponseError_init ⟨500, some [("detail", "Bad request")]⟩
        = Except.ok ⟨500, "Bad request"⟩ := by
  refine ⟨rfl, rfl, rfl⟩

/-- Claim C7, counterexample: resolving the path-tree template with id 42
against `http://host/api/2/` yields `http://host/api/2/path/tree/42`
without a trailing slash, not `http://host/api/2/path/tree/42/`. -/
theorem pathTree_no_trailing_slash_counterexample :
    gen_url pathTree_uri [Arg.int 42] "http://host/api/2/" = "http://host/api/2/path/tree/42"
    ∧ gen_url pathTree_uri [Arg.int 42] "http://host/api/2/"
        ≠ "http://host/api/2/path/tree/42/" := by
  exact ⟨rfl, by decide⟩

/-- Claim C7, amended: the user template with id `"bobafett"` resolves to
`http://host/api/2/user/bobafett/` (trailing slash included) and the
path-tree template with id 42 resolves to
`http://host/api/2/path/tree/42` (no trailing slash), with no doubled
separator after the scheme even when the base lacks its trailing slash
or the id carries a leading slash. -/
theorem resolve_round_trip_urls :
    gen_url user_uri [Arg.str "bobafett"] "http://host/api/2/"
        = "http://host/api/2/user/bobafett/"
    ∧ gen_url pathTree_uri [Arg.int 42] "http://host/api/2/"
        = "http://host/api/2/path/tree/42"
    ∧ gen_url user_uri [Arg.str "/bobafett"] "http://host/api/2"
        = "http://host/api/2/user/bobafett/"
    ∧ gen_url pathTree_uri [Arg.int 42] "http://host/api/2"
        = "http://host/api/2/path/tree/42"
    ∧ hasDS ((gen_url user_uri [Arg.str "/bobafett"] "http://host/api/2").data.drop 7) = false
    ∧ hasDS ((gen_url pathTree_uri [Arg.int 42] "http://host/api/2/").data.drop 7) = false := by
  refine ⟨rfl, rfl, rfl, rfl, rfl, rfl⟩

/-- Claim C8, counterexample: with an explicit key but no password and an
empty environment, neither source yields both values, yet `_get_auth`
succeeds with the partial pair instead of failing with the configuration
error. -/
theorem get_auth_partial_explicit_counterexample :
    get_auth (some "k") none envEmpty = Except.ok (some "k", none)
    ∧ get_auth (some "k") none envEmpty ≠ Except.error auth_error_msg :=
  ⟨rfl, fun hcontra => Except.noConfusion hcontra⟩

/-- Claim C8, amended: credentials come from the explicit constructor
arguments, and the two named environment variables are consulted exactly
when both explicit arguments are unset; in that case initialization
fails with the configuration error when either variable is missing, and
otherwise returns the environment pair.  When at least one explicit
argument is set, the explicit pair is returned as-is — even if
incomplete — without consulting the environment and without error.  No
network call is involved. -/
theorem get_auth_resolution :
    ∀ (api_key api_pass : Option String) (env : String → Option String),
      (api_key = none → api_pass = none →
        ((∃ k p, env "SMARTFILE_API_KEY" = some k ∧ env "SMARTFILE_API_PASS" = some p
            ∧ get_auth api_key api_pass env = Except.ok (some k, some p))
         ∨ ((env "SMARTFILE_API_KEY" = none ∨ env "SMARTFILE_API_PASS" = none)
            ∧ get_auth api_key api_pass env = Except.error auth_error_msg)))
      ∧ ((api_key ≠ none ∨ api_pass ≠ none) →
          get_auth api_key api_pass env = Except.ok (api_key, api_pass)) := by
  intro api_key api_pass env
  constructor
  · intro hk hp
    subst hk
    subst hp
    cases hK : env "SMARTFILE_API_KEY" with
    | none =>
      right
      refine ⟨Or.inl rfl, ?_⟩
      cases hP : env "SMARTFILE_API_PASS" <;> simp [get_auth, hK, hP]
    | some k =>
      cases hP : env "SMARTFILE_API_PASS" with
      | none =>
        right
        exact ⟨Or.inr rfl, by simp [get_auth, hK, hP]⟩
      | some p =>
        left
        exact ⟨k, p, rfl, rfl, by simp [get_auth, hK, hP]⟩
  · intro h
    have hne : (api_key.isNone && api_pass.isNone) = false := by
      rcases h with h | h <;> cases api_key <;> cases api_pass <;> simp_all
    simp [get_auth, hne]

/-- Witness for `get_auth_resolution`: a fully defined environment with
both arguments unset, and a fully explicit pair with an empty
environment. -/
theorem get_auth_resolution_witness :
    ((∃ k p, envBoth "SMARTFILE_API_KEY" = some k ∧ envBoth "SMARTFILE_API_PASS" = some p
        ∧ get_auth none none envBoth = Except.ok (some k, some p))
     ∨ ((envBoth "SMARTFILE_API_KEY" = none ∨ envBoth "SMARTFILE_API_PASS" = none)
        ∧ get_auth none none envBoth = Except.error auth_error_msg))
    ∧ get_auth (some "k") (some "p") envEmpty = Except.ok (some "k", some "p") :=
  ⟨(get_auth_resolution none none envBoth).1 rfl rfl,
   (get_auth_resolution (some "k") (some "p") envEmpty).2 (Or.inl (by simp))⟩

/-- Claim C9: on a successful download the bytes written to the
destination are the concatenation, in order, of every chunk streamed
from the data endpoint's response, the concatenation is exactly the
response body, and the body is consumed in chunks of size 16 * 1024. -/
theorem download_writes_streamed_chunks :
    ∀ (read_tree : String → TreeResponse) (read_data : String → DataResponse) (src : String),
      (read_data (read_tree src).json_id).status_code = 200 →
      (PathAPI_download read_tree read_data src
          = (read_data (read_tree src).json_id,
             some ((iter_content (read_data (read_tree src).json_id) (16 * 1024)).flatten))
       ∧ (iter_content (read_data (read_tree src).json_id) (16 * 1024)).flatten
           = (read_data (read_tree src).json_id).content
       ∧ ∀ c ∈ iter_content (read_data (read_tree src).json_id) (16 * 1024),
           c.length ≤ 16 * 1024) := by
  intro read_tree read_data src h
  refine ⟨?_, ?_, ?_⟩
  · simp only [PathAPI_download, h]
    rw [foldl_append_eq_flatten]
    simp
  · exact chunksFuel_flatten (16 * 1024) (by norm_num) _ _ (le_refl _)
  · intro c hc
    exact chunksFuel_bound (16 * 1024) (by norm_num) _ _ c hc (le_refl _)

/-- Witness for `download_writes_streamed_chunks` on a three-byte body
served with status 200. -/
theorem download_writes_streamed_chunks_witness :
    PathAPI_download treeStub dataStub "/f"
        = (dataStub (treeStub "/f").json_id,
           some ((iter_content (dataStub (treeStub "/f").json_id) (16 * 1024)).flatten))
    ∧ (iter_content (dataStub (treeStub "/f").json_id) (16 * 1024)).flatten
        = (dataStub (treeStub "/f").json_id).content
    ∧ ∀ c ∈ iter_content (dataStub (treeStub "/f").json_id) (16 * 1024),
        c.length ≤ 16 * 1024 :=
  download_writes_streamed_chunks treeStub dataStub "/f" rfl

/-- Claim C10: `poll` is well-defined exactly for a positive budget — for
`checks ≥ 1` it performs between 1 and `checks` GETs and returns the
last response obtained; for `checks ≤ 0` it performs no GET and the
`return response` line refers to a variable that was never bound
(modelled as the `none` outcome). -/
theorem poll_defined_iff_positive_checks :
    ∀ (t : Nat → Response) (checks : Int),
      (1 ≤ checks →
        ∃ r n, poll t checks = (some r, n) ∧ 1 ≤ n ∧ (n : Int) ≤ checks ∧ r = t (n - 1))
      ∧ (checks ≤ 0 → poll t checks = (none, 0)) := by
  intro t checks
  constructor
  · intro h
    obtain ⟨r, n, hres, h1, h2, hr⟩ := pollLoop_run t checks.toNat 0 (by omega)
    refine ⟨r, n, ?_, h1, by omega, ?_⟩
    · simpa [poll] using hres
    · simpa using hr
  · intro h
    have h0 : checks.toNat = 0 := by omega
    simp [poll, h0, pollLoop]

/-- Witness for `poll_defined_iff_positive_checks` at the always-pending
transport with budgets 5 and -2. -/
theorem poll_defined_iff_positive_checks_witness :
    (∃ r n, poll alwaysPending 5 = (some r, n) ∧ 1 ≤ n ∧ (n : Int) ≤ 5
        ∧ r = alwaysPending (n - 1))
    ∧ poll alwaysPending (-2) = (none, 0) :=
  ⟨(poll_defined_iff_positive_checks alwaysPending 5).1 (by norm_num),
   (poll_defined_iff_positive_checks alwaysPending (-2)).2 (by norm_num)⟩

end SmartFile
